import Mathlib

/-!
Verification of the duplicate-EMP-ID reporter (`src/find.py`).

The script loads a JSON file into a DataFrame (`pd.read_json`), counts the
occurrences of each value of the column `"EMP ID"` (`value_counts`), keeps
the counts strictly greater than one, and prints either a "no duplicates"
message or a header line followed by a two-column table.

The embedding below mirrors that pipeline.  A loaded row is an association
list from column name to JSON value (`none` standing for JSON `null`); the
content of the input file is either missing (raising `FileNotFoundError`),
malformed (raising `ValueError` from the JSON parser), or a list of rows.
Printing is modelled by a list of output lines, where the markdown table
printed at the end is kept structurally as its column headers and rows.
Failures that the script does not catch terminate the run and are modelled
by the `uncaught` result.
-/

namespace TLPerf

/-- A row of the DataFrame produced by `pd.read_json`: an association list
from column name to value, `none` modelling JSON `null` (a NaN cell). -/
abbrev Row : Type := List (String × Option String)

/-- What the interpreter finds at the input path: no file at all
(`FileNotFoundError`), a file that is not a JSON array of objects
(`ValueError`, which also covers the empty file), or a parsed record
collection. -/
inductive FileContent where
  | missing : FileContent
  | malformed : FileContent
  | records : List Row → FileContent
  deriving DecidableEq

/-- The pandas errors the script can raise and does not catch. -/
inductive PandasError where
  | valueError : PandasError
  | keyError : PandasError
  deriving DecidableEq

/-- One printed line: either plain text or the markdown table printed by
`print(df_duplicates.to_markdown(index=False))`, kept structurally as its
column headers together with its (identifier, count) rows. -/
inductive OutLine where
  | text : String → OutLine
  | table : List String → List (String × Nat) → OutLine
  deriving DecidableEq

/-- Outcome of one invocation: a normal return with the lines printed to
standard output, or termination by an uncaught exception. -/
inductive RunResult where
  | ok : List OutLine → RunResult
  | uncaught : PandasError → RunResult
  deriving DecidableEq

/-- The `"EMP ID"` column of the DataFrame, elementwise: for each row, the
cell holds the row's value when the key is present with a non-null value,
and NaN (`none`) when the key is absent or its value is `null`. -/
def colSeries (rows : List Row) (c : String) : List (Option String) :=
  rows.map (fun r => (List.lookup c r).join)

/-- A column exists in the DataFrame iff at least one row carries its key;
`df['EMP ID']` raises `KeyError` exactly when no row does (in particular on
the empty collection). -/
def hasColumn (rows : List Row) (c : String) : Bool :=
  rows.any (fun r => (List.lookup c r).isSome)

/-- `dropna`: the non-null entries of a series, in order.  `value_counts`
ignores NaN cells (`dropna=True` is the default). -/
def dropna (xs : List (Option String)) : List String :=
  xs.filterMap id

/-- The distinct values of a list, each kept at its first occurrence. -/
def dedupFirst : List String → List String
  | [] => []
  | x :: xs => x :: (dedupFirst xs).filter (fun y => y != x)

/-- Comparator ordering (identifier, count) pairs by descending count. -/
def countGE (a b : String × Nat) : Prop := b.2 ≤ a.2

instance : DecidableRel countGE := fun a b => Nat.decLe b.2 a.2

instance : IsTotal (String × Nat) countGE := ⟨fun a b => Nat.le_total b.2 a.2⟩

instance : IsTrans (String × Nat) countGE :=
  ⟨fun _ _ _ h h' => Nat.le_trans h' h⟩

/-- `Series.value_counts()`: one (value, count) pair per distinct non-null
value of the series, sorted by descending count. -/
def value_counts (xs : List (Option String)) : List (String × Nat) :=
  List.insertionSort countGE
    ((dedupFirst (dropna xs)).map (fun v => (v, (dropna xs).count v)))

/-- `id_counts = df['EMP ID'].value_counts()` (line 17 of the script). -/
def id_counts (rows : List Row) : List (String × Nat) :=
  value_counts (colSeries rows "EMP ID")

/-- `duplicate_ids = id_counts[id_counts > 1]` (line 20 of the script). -/
def duplicate_ids (rows : List Row) : List (String × Nat) :=
  (id_counts rows).filter (fun p => 1 < p.2)

/-- The exact message printed when no duplicates are found (line 24). -/
def noDupMsg : String :=
  "No EMP IDs were found with more than one entry in the data."

/-- The header line printed before the table (line 27), where `n` is
`len(duplicate_ids)`. -/
def headerLine (n : Nat) : String :=
  "--- EMP IDs with more than 1 entry (" ++ toString n ++ " IDs found) ---"

/-- The column headers assigned to the printed table (line 32). -/
def tableHeader : List String := ["EMP ID", "Count of Entries"]

/-- `find_duplicate_emp_ids`, the whole script body: on a missing file it
catches `FileNotFoundError`, prints the error line and returns; a malformed
file makes `pd.read_json` raise an uncaught `ValueError`; otherwise
`df['EMP ID']` raises an uncaught `KeyError` when the column is absent, and
else the counting, filtering and printing steps run as in lines 16-34. -/
def find_duplicate_emp_ids (file_name : String) (f : FileContent) : RunResult :=
  match f with
  | .missing => .ok [.text ("Error: File '" ++ file_name ++ "' not found.")]
  | .malformed => .uncaught .valueError
  | .records rows =>
    if hasColumn rows "EMP ID" then
      if (duplicate_ids rows).isEmpty then
        .ok [.text noDupMsg]
      else
        .ok [.text (headerLine (duplicate_ids rows).length),
             .table tableHeader (duplicate_ids rows)]
    else
      .uncaught .keyError

/-- The effectful operations a run can perform.  The source contains only
the read inside `pd.read_json` and `print` calls; the write and mutation
effects exist in the model so that their absence from every trace is a
statement about the program. -/
inductive Effect where
  | readFile : String → Effect
  | stdout : OutLine → Effect
  | writeFile : String → String → Effect
  | mutateInput : Effect
  deriving DecidableEq

/-- The effect trace of one invocation: the read of the input file followed
by one stdout effect per printed line (an uncaught exception prints nothing
through the script itself). -/
def runTrace (file_name : String) (f : FileContent) : List Effect :=
  Effect.readFile file_name ::
    (match find_duplicate_emp_ids file_name f with
     | .ok out => out.map Effect.stdout
     | .uncaught _ => [])

/-! Basic lemmas about the counting pipeline. -/

theorem mem_dedupFirst {x : String} : ∀ {l : List String}, x ∈ dedupFirst l ↔ x ∈ l
  | [] => Iff.rfl
  | a :: l => by
    by_cases hx : x = a
    · subst hx; simp [dedupFirst]
    · simp [dedupFirst, List.mem_filter, bne_iff_ne, hx, mem_dedupFirst (l := l)]

theorem nodup_dedupFirst : ∀ l : List String, (dedupFirst l).Nodup
  | [] => List.nodup_nil
  | a :: l => by
    refine List.nodup_cons.mpr ⟨?_, (nodup_dedupFirst l).filter _⟩
    simp [List.mem_filter]

theorem dedupFirst_perm_dedup (l : List String) : List.Perm (dedupFirst l) l.dedup := by
  refine List.perm_of_nodup_nodup_toFinset_eq (nodup_dedupFirst l) l.nodup_dedup ?_
  ext x
  simp [mem_dedupFirst]

theorem dropna_cons_none (xs : List (Option String)) :
    dropna (none :: xs) = dropna xs := rfl

theorem dropna_cons_some (a : String) (xs : List (Option String)) :
    dropna (some a :: xs) = a :: dropna xs := rfl

theorem count_dropna (v : String) : ∀ xs : List (Option String),
    (dropna xs).count v = xs.count (some v)
  | [] => rfl
  | none :: xs => by
    rw [dropna_cons_none, count_dropna v xs, List.count_cons]
    simp
  | some a :: xs => by
    rw [dropna_cons_some, List.count_cons, List.count_cons, count_dropna v xs]
    simp

theorem length_dropna_of_all_some : ∀ {xs : List (Option String)},
    (∀ o ∈ xs, o.isSome = true) → (dropna xs).length = xs.length
  | [], _ => rfl
  | none :: _, h => by simpa using h none
  | some a :: xs, h => by
    have ih := length_dropna_of_all_some
      (fun o ho => h o (List.mem_cons_of_mem _ ho))
    rw [dropna_cons_some, List.length_cons, List.length_cons, ih]

theorem length_dropna_lt_of_none : ∀ {xs : List (Option String)},
    none ∈ xs → (dropna xs).length < xs.length
  | none :: xs, _ => by
    rw [dropna_cons_none]
    exact Nat.lt_succ_of_le (List.length_filterMap_le id xs)
  | some a :: xs, h => by
    have hx : none ∈ xs := by simpa using h
    rw [dropna_cons_some, List.length_cons, List.length_cons]
    exact Nat.succ_lt_succ (length_dropna_lt_of_none hx)

theorem value_counts_perm (xs : List (Option String)) :
    List.Perm (value_counts xs)
      ((dedupFirst (dropna xs)).map (fun v => (v, (dropna xs).count v))) :=
  List.perm_insertionSort _ _

theorem mem_value_counts {xs : List (Option String)} {v : String} {n : Nat} :
    (v, n) ∈ value_counts xs ↔ v ∈ dropna xs ∧ n = (dropna xs).count v := by
  rw [(value_counts_perm xs).mem_iff, List.mem_map]
  constructor
  · rintro ⟨w, hw, he⟩
    rw [Prod.mk.injEq] at he
    obtain ⟨rfl, rfl⟩ := he
    exact ⟨mem_dedupFirst.mp hw, rfl⟩
  · rintro ⟨hv, rfl⟩
    exact ⟨v, mem_dedupFirst.mpr hv, rfl⟩

theorem sorted_value_counts (xs : List (Option String)) :
    (value_counts xs).Pairwise countGE :=
  List.sorted_insertionSort countGE _

theorem sum_value_counts (xs : List (Option String)) :
    ((value_counts xs).map Prod.snd).sum = (dropna xs).length := by
  rw [((value_counts_perm xs).map Prod.snd).sum_eq, List.map_map]
  have h1 : Prod.snd ∘ (fun v => (v, (dropna xs).count v)) =
      fun v => (dropna xs).count v := rfl
  rw [h1,
    ((dedupFirst_perm_dedup (dropna xs)).map (fun v => (dropna xs).count v)).sum_eq,
    List.sum_map_count_dedup_eq_length]

theorem value_counts_congr {xs ys : List (Option String)}
    (h : dropna xs = dropna ys) : value_counts xs = value_counts ys := by
  unfold value_counts
  rw [h]

theorem hasColumn_of_mem_series {rows : List Row} {v : String}
    (h : some v ∈ colSeries rows "EMP ID") : hasColumn rows "EMP ID" = true := by
  obtain ⟨r, hr, he⟩ := List.mem_map.mp h
  refine List.any_eq_true.mpr ⟨r, hr, ?_⟩
  cases ho : List.lookup "EMP ID" r with
  | none => rw [ho] at he; simp at he
  | some o => simp [ho]

theorem length_duplicate_ids (rows : List Row) :
    (duplicate_ids rows).length =
      ((dropna (colSeries rows "EMP ID")).toFinset.filter
        (fun w => 1 < (dropna (colSeries rows "EMP ID")).count w)).card := by
  set d : List String := dropna (colSeries rows "EMP ID") with hd
  have hperm : List.Perm (duplicate_ids rows)
      (((dedupFirst d).map (fun v => (v, d.count v))).filter (fun p => 1 < p.2)) :=
    (value_counts_perm (colSeries rows "EMP ID")).filter _
  rw [hperm.length_eq, List.filter_map]
  have hcomp : ((fun p : String × Nat => decide (1 < p.2)) ∘ fun v => (v, d.count v)) =
      fun v => decide (1 < d.count v) := rfl
  rw [hcomp, List.length_map]
  have hnd : ((dedupFirst d).filter
      (fun v => decide (1 < d.count v))).Nodup :=
    (nodup_dedupFirst d).filter _
  rw [← List.toFinset_card_of_nodup hnd]
  congr 1
  ext w
  simp [List.mem_filter, mem_dedupFirst, Function.comp]

/-! Claim theorems. -/

/-- Claim C1: for every record collection in which some "EMP ID" value
appears k > 1 times, the printed report is a header followed by the table,
the table pairs that identifier with count exactly k, and the count stated
in the header equals the number of distinct identifier values whose count
is greater than 1. -/
theorem C1_duplicate_reported (file_name : String) (rows : List Row)
    (v : String) (k : Nat) (hk : 1 < k)
    (hcount : (colSeries rows "EMP ID").count (some v) = k) :
    ∃ dups : List (String × Nat),
      find_duplicate_emp_ids file_name (.records rows) =
        .ok [.text (headerLine dups.length), .table tableHeader dups]
      ∧ (v, k) ∈ dups
      ∧ dups.length =
          ((dropna (colSeries rows "EMP ID")).toFinset.filter
            (fun w => 1 < (dropna (colSeries rows "EMP ID")).count w)).card := by
  have hmemS : some v ∈ colSeries rows "EMP ID" := by
    by_contra h
    rw [List.count_eq_zero_of_not_mem h] at hcount
    omega
  have hcol : hasColumn rows "EMP ID" = true := hasColumn_of_mem_series hmemS
  have hvd : (v, k) ∈ duplicate_ids rows := by
    refine List.mem_filter.mpr ⟨?_, by simpa using hk⟩
    refine mem_value_counts.mpr ⟨?_, ?_⟩
    · by_contra h
      rw [← count_dropna v (colSeries rows "EMP ID"),
        List.count_eq_zero_of_not_mem h] at hcount
      omega
    · rw [count_dropna, hcount]
  have hne : (duplicate_ids rows).isEmpty = false := by
    cases hdup : duplicate_ids rows with
    | nil => rw [hdup] at hvd; simp at hvd
    | cons a l => rfl
  refine ⟨duplicate_ids rows, ?_, hvd, length_duplicate_ids rows⟩
  simp [find_duplicate_emp_ids, hcol, hne]

/-- Witness for C1 at the three-row collection A, A, B. -/
theorem C1_witness :
    1 < 2
    ∧ (colSeries [[("EMP ID", some "A")], [("EMP ID", some "A")],
        [("EMP ID", some "B")]] "EMP ID").count (some "A") = 2
    ∧ ∃ dups : List (String × Nat),
        find_duplicate_emp_ids "membercsvjson.json"
            (.records [[("EMP ID", some "A")], [("EMP ID", some "A")],
              [("EMP ID", some "B")]]) =
          .ok [.text (headerLine dups.length), .table tableHeader dups]
        ∧ ("A", 2) ∈ dups
        ∧ dups.length =
            ((dropna (colSeries [[("EMP ID", some "A")], [("EMP ID", some "A")],
                [("EMP ID", some "B")]] "EMP ID")).toFinset.filter
              (fun w => 1 < (dropna (colSeries [[("EMP ID", some "A")],
                [("EMP ID", some "A")], [("EMP ID", some "B")]] "EMP ID")).count w)).card :=
  ⟨by decide, by decide,
    C1_duplicate_reported "membercsvjson.json" _ "A" 2 (by decide) (by decide)⟩

/-- Claim C2 counterexample: the empty record collection (the parse of the
JSON text "[]") vacuously has every "EMP ID" value appearing at most once,
yet the run ends in an uncaught KeyError instead of printing the
"no duplicates" line. -/
theorem C2_counterexample :
    (∀ v : String, (colSeries ([] : List Row) "EMP ID").count (some v) ≤ 1)
    ∧ find_duplicate_emp_ids "membercsvjson.json" (.records []) =
        .uncaught .keyError := by
  constructor
  · intro v
    simp [colSeries]
  · decide

/-- Claim C2 (amended): for every record collection whose "EMP ID" column
exists (some record carries the key) and in which every identifier value
appears at most once, the program prints exactly the "no duplicates" line,
with no header and no table. -/
theorem C2_no_duplicates_message (file_name : String) (rows : List Row)
    (hcol : hasColumn rows "EMP ID" = true)
    (honce : ∀ v : String, (colSeries rows "EMP ID").count (some v) ≤ 1) :
    find_duplicate_emp_ids file_name (.records rows) = .ok [.text noDupMsg] := by
  have hnil : duplicate_ids rows = [] := by
    unfold duplicate_ids
    rw [List.filter_eq_nil_iff]
    rintro ⟨v, n⟩ hp
    have hp' : (v, n) ∈ value_counts (colSeries rows "EMP ID") := hp
    have hm := (mem_value_counts.mp hp').2
    rw [count_dropna] at hm
    have h1 := honce v
    simp only [decide_eq_true_eq]
    omega
  simp [find_duplicate_emp_ids, hcol, hnil]

/-- Witness for C2 at the one-row collection A. -/
theorem C2_witness :
    hasColumn [[("EMP ID", some "A")]] "EMP ID" = true
    ∧ (∀ v : String,
        (colSeries [[("EMP ID", some "A")]] "EMP ID").count (some v) ≤ 1)
    ∧ find_duplicate_emp_ids "membercsvjson.json"
        (.records [[("EMP ID", some "A")]]) = .ok [.text noDupMsg] := by
  have honce : ∀ v : String,
      (colSeries [[("EMP ID", some "A")]] "EMP ID").count (some v) ≤ 1 := by
    intro v
    exact le_trans (List.count_le_length _ _) (by decide)
  exact ⟨by decide, honce,
    C2_no_duplicates_message "membercsvjson.json" _ (by decide) honce⟩

/-- Claim C3 counterexample: a one-row collection whose single record has a
null "EMP ID" parses successfully, but the sum of the counts in the
frequency table is 0 while the collection has 1 record. -/
theorem C3_counterexample :
    ¬ (((id_counts [[("EMP ID", none)]]).map Prod.snd).sum
        = ([[("EMP ID", none)]] : List Row).length) := by decide

/-- Claim C3 (amended): the count recorded for each identifier value equals
the number of rows carrying that value, and for every record collection in
which every record carries a non-null "EMP ID" the sum of all counts in the
pre-filter frequency table equals the total number of records. -/
theorem C3_frequency_invariant (rows : List Row) :
    (∀ v n, (v, n) ∈ id_counts rows →
      n = (colSeries rows "EMP ID").count (some v))
    ∧ ((∀ r ∈ rows, ((List.lookup "EMP ID" r).join).isSome = true) →
        ((id_counts rows).map Prod.snd).sum = rows.length) := by
  constructor
  · intro v n hm
    have hm' : (v, n) ∈ value_counts (colSeries rows "EMP ID") := hm
    have h2 := (mem_value_counts.mp hm').2
    rw [count_dropna] at h2
    exact h2
  · intro hall
    have hsum := sum_value_counts (colSeries rows "EMP ID")
    have hlen : (dropna (colSeries rows "EMP ID")).length =
        (colSeries rows "EMP ID").length := by
      apply length_dropna_of_all_some
      intro o ho
      obtain ⟨r, hr, rfl⟩ := List.mem_map.mp ho
      exact hall r hr
    calc ((id_counts rows).map Prod.snd).sum
        = (dropna (colSeries rows "EMP ID")).length := hsum
      _ = (colSeries rows "EMP ID").length := hlen
      _ = rows.length := List.length_map _ _

/-- Witness for C3 at the two-row collection A, A. -/
theorem C3_witness :
    (∀ r ∈ ([[("EMP ID", some "A")], [("EMP ID", some "A")]] : List Row),
        ((List.lookup "EMP ID" r).join).isSome = true)
    ∧ ((∀ v n,
          (v, n) ∈ id_counts [[("EMP ID", some "A")], [("EMP ID", some "A")]] →
          n = (colSeries [[("EMP ID", some "A")], [("EMP ID", some "A")]]
              "EMP ID").count (some v))
        ∧ ((id_counts [[("EMP ID", some "A")], [("EMP ID", some "A")]]).map
            Prod.snd).sum =
          ([[("EMP ID", some "A")], [("EMP ID", some "A")]] : List Row).length) :=
  ⟨by decide,
    (C3_frequency_invariant [[("EMP ID", some "A")], [("EMP ID", some "A")]]).1,
    (C3_frequency_invariant [[("EMP ID", some "A")], [("EMP ID", some "A")]]).2
      (by decide)⟩

/-- Claim C4: on a missing file the FileNotFoundError is caught, the error
line is printed, the run returns normally, and the output contains no
table. -/
theorem C4_missing_file (file_name : String) :
    find_duplicate_emp_ids file_name .missing =
        .ok [.text ("Error: File '" ++ file_name ++ "' not found.")]
    ∧ ∀ out, find_duplicate_emp_ids file_name .missing = .ok out →
        ∀ hdr trows, OutLine.table hdr trows ∉ out := by
  refine ⟨rfl, ?_⟩
  intro out hout hdr trows hmem
  simp only [find_duplicate_emp_ids, RunResult.ok.injEq] at hout
  subst hout
  simp at hmem

/-- Claim C5: the reported duplicate subset is exactly the restriction of
the frequency table to counts strictly greater than 1, an identifier
counted exactly once never appears in any printed table, and an empty
duplicate subset leads to the (non-crashing) "no duplicates" return. -/
theorem C5_duplicate_subset (file_name : String) (rows : List Row)
    (hcol : hasColumn rows "EMP ID" = true) :
    (∀ v n, ((v, n) ∈ duplicate_ids rows ↔
        ((v, n) ∈ id_counts rows ∧ 1 < n)))
    ∧ (∀ v, (colSeries rows "EMP ID").count (some v) = 1 →
        ∀ out hdr trows,
          find_duplicate_emp_ids file_name (.records rows) = .ok out →
          OutLine.table hdr trows ∈ out → ∀ n, (v, n) ∉ trows)
    ∧ (duplicate_ids rows = [] →
        find_duplicate_emp_ids file_name (.records rows) = .ok [.text noDupMsg]) := by
  refine ⟨?_, ?_, ?_⟩
  · intro v n
    constructor
    · intro h
      have h1 := List.mem_filter.mp h
      exact ⟨h1.1, by simpa using h1.2⟩
    · intro h
      exact List.mem_filter.mpr ⟨h.1, by simpa using h.2⟩
  · intro v hv1 out hdr trows hrun hmem n hvn
    by_cases hemp : (duplicate_ids rows).isEmpty = true
    · simp [find_duplicate_emp_ids, hcol, hemp] at hrun
      subst hrun
      simp at hmem
    · simp [find_duplicate_emp_ids, hcol, hemp] at hrun
      subst hrun
      simp at hmem
      obtain ⟨-, rfl⟩ := hmem
      have h1 := List.mem_filter.mp hvn
      have h2 : (v, n) ∈ value_counts (colSeries rows "EMP ID") := h1.1
      have h3 := (mem_value_counts.mp h2).2
      rw [count_dropna, hv1] at h3
      have h4 := h1.2
      simp at h4
      omega
  · intro hnil
    simp [find_duplicate_emp_ids, hcol, hnil]

/-- Witness for C5 at the two-row collection A, A. -/
theorem C5_witness :
    hasColumn [[("EMP ID", some "A")], [("EMP ID", some "A")]] "EMP ID" = true
    ∧ ((∀ v n, ((v, n) ∈ duplicate_ids [[("EMP ID", some "A")],
          [("EMP ID", some "A")]] ↔
          ((v, n) ∈ id_counts [[("EMP ID", some "A")], [("EMP ID", some "A")]]
            ∧ 1 < n)))
      ∧ (∀ v, (colSeries [[("EMP ID", some "A")], [("EMP ID", some "A")]]
            "EMP ID").count (some v) = 1 →
          ∀ out hdr trows,
            find_duplicate_emp_ids "membercsvjson.json"
              (.records [[("EMP ID", some "A")], [("EMP ID", some "A")]]) = .ok out →
            OutLine.table hdr trows ∈ out → ∀ n, (v, n) ∉ trows)
      ∧ (duplicate_ids [[("EMP ID", some "A")], [("EMP ID", some "A")]] = [] →
          find_duplicate_emp_ids "membercsvjson.json"
            (.records [[("EMP ID", some "A")], [("EMP ID", some "A")]]) =
            .ok [.text noDupMsg])) :=
  ⟨by decide, C5_duplicate_subset "membercsvjson.json" _ (by decide)⟩

/-- Claim C6: on the concrete collection A, A, B the program prints the
header "--- EMP IDs with more than 1 entry (1 IDs found) ---" and then the
table with header row "EMP ID" / "Count of Entries" and single row (A, 2). -/
theorem C6_concrete_example :
    find_duplicate_emp_ids "membercsvjson.json"
        (.records [[("EMP ID", some "A")], [("EMP ID", some "A")],
          [("EMP ID", some "B")]]) =
      .ok [.text "--- EMP IDs with more than 1 entry (1 IDs found) ---",
           .table ["EMP ID", "Count of Entries"] [("A", 2)]] := by decide

/-- Claim C7: every table a run prints has its rows ordered by descending
count. -/
theorem C7_table_sorted_desc (file_name : String) (f : FileContent)
    (out : List OutLine) (hdr : List String) (trows : List (String × Nat))
    (hrun : find_duplicate_emp_ids file_name f = .ok out)
    (hmem : OutLine.table hdr trows ∈ out) :
    trows.Pairwise (fun a b => b.2 ≤ a.2) := by
  cases f with
  | missing =>
    simp only [find_duplicate_emp_ids, RunResult.ok.injEq] at hrun
    subst hrun
    simp at hmem
  | malformed => simp [find_duplicate_emp_ids] at hrun
  | records rows =>
    by_cases hcol : hasColumn rows "EMP ID" = true
    · by_cases hemp : (duplicate_ids rows).isEmpty = true
      · simp [find_duplicate_emp_ids, hcol, hemp] at hrun
        subst hrun
        simp at hmem
      · simp [find_duplicate_emp_ids, hcol, hemp] at hrun
        subst hrun
        simp at hmem
        obtain ⟨-, rfl⟩ := hmem
        exact (sorted_value_counts (colSeries rows "EMP ID")).filter _
    · simp [find_duplicate_emp_ids, hcol] at hrun

/-- Witness for C7 at the three-row collection A, A, B. -/
theorem C7_witness :
    find_duplicate_emp_ids "membercsvjson.json"
        (.records [[("EMP ID", some "A")], [("EMP ID", some "A")],
          [("EMP ID", some "B")]]) =
      .ok [.text (headerLine 1), .table tableHeader [("A", 2)]]
    ∧ OutLine.table tableHeader [("A", 2)] ∈
        [OutLine.text (headerLine 1), OutLine.table tableHeader [("A", 2)]]
    ∧ ([("A", 2)] : List (String × Nat)).Pairwise (fun a b => b.2 ≤ a.2) :=
  ⟨by decide, by decide,
    C7_table_sorted_desc "membercsvjson.json"
      (.records [[("EMP ID", some "A")], [("EMP ID", some "A")],
        [("EMP ID", some "B")]])
      [OutLine.text (headerLine 1), OutLine.table tableHeader [("A", 2)]]
      tableHeader [("A", 2)] (by decide) (by decide)⟩

/-- Claim C8 counterexample: a two-record collection whose second record
lacks the "EMP ID" field entirely is not an uncaught failure; the missing
cell becomes NaN, is dropped from counting, and the run returns normally
with the "no duplicates" line. -/
theorem C8_counterexample :
    find_duplicate_emp_ids "membercsvjson.json"
        (.records [[("EMP ID", some "A")], []]) = .ok [.text noDupMsg] := by
  decide

/-- Claim C8 (amended): malformed JSON (including an empty file) raises an
uncaught ValueError, and a parsed record collection raises an uncaught
KeyError exactly when no record carries the "EMP ID" key (in particular on
the empty collection); in both cases no handled-path output is produced. -/
theorem C8_unhandled_failures (file_name : String) (rows : List Row)
    (hnocol : hasColumn rows "EMP ID" = false) :
    find_duplicate_emp_ids file_name .malformed = .uncaught .valueError
    ∧ find_duplicate_emp_ids file_name (.records rows) = .uncaught .keyError := by
  refine ⟨rfl, ?_⟩
  simp [find_duplicate_emp_ids, hnocol]

/-- Witness for C8 at the empty record collection. -/
theorem C8_witness :
    hasColumn ([] : List Row) "EMP ID" = false
    ∧ (find_duplicate_emp_ids "membercsvjson.json" .malformed =
          .uncaught .valueError
      ∧ find_duplicate_emp_ids "membercsvjson.json" (.records []) =
          .uncaught .keyError) :=
  ⟨by decide, C8_unhandled_failures "membercsvjson.json" [] (by decide)⟩

/-- Claim C9: every effect in the trace of a run is the read of the input
file or a write to standard output; in particular no run ever performs a
file write or mutates the loaded records. -/
theorem C9_only_read_and_stdout (file_name : String) (f : FileContent)
    (e : Effect) (he : e ∈ runTrace file_name f) :
    (∃ n, e = Effect.readFile n) ∨ (∃ l, e = Effect.stdout l) := by
  unfold runTrace at he
  rcases List.mem_cons.mp he with h | h
  · exact Or.inl ⟨file_name, h⟩
  · cases hr : find_duplicate_emp_ids file_name f with
    | ok out =>
      rw [hr] at h
      obtain ⟨l, -, rfl⟩ := List.mem_map.mp h
      exact Or.inr ⟨l, rfl⟩
    | uncaught err =>
      rw [hr] at h
      simp at h

/-- Witness for C9 at a missing-file run. -/
theorem C9_witness :
    Effect.readFile "membercsvjson.json" ∈
        runTrace "membercsvjson.json" .missing
    ∧ ((∃ n, Effect.readFile "membercsvjson.json" = Effect.readFile n)
      ∨ (∃ l, Effect.readFile "membercsvjson.json" = Effect.stdout l)) :=
  ⟨by decide, C9_only_read_and_stdout "membercsvjson.json" .missing _ (by decide)⟩

/-- Claim C10: a record whose "EMP ID" cell is null or missing contributes
to no count (deleting it from any collection leaves the frequency table
unchanged), every reported count only counts rows with that non-null value,
and when such a record exists the sum of the counts is strictly less than
the number of records. -/
theorem C10_null_rows_dropped (rows : List Row) (r : Row) (hr : r ∈ rows)
    (hnull : (List.lookup "EMP ID" r).join = none) :
    (∀ rows₁ rows₂ : List Row,
        id_counts (rows₁ ++ r :: rows₂) = id_counts (rows₁ ++ rows₂))
    ∧ (∀ v n, (v, n) ∈ id_counts rows →
        n = (colSeries rows "EMP ID").count (some v))
    ∧ ((id_counts rows).map Prod.snd).sum < rows.length := by
  refine ⟨?_, ?_, ?_⟩
  · intro rows₁ rows₂
    apply value_counts_congr
    have hnull' : ((List.lookup "EMP ID" r).bind fun a => a) = none := hnull
    simp [colSeries, dropna, hnull']
  · intro v n hm
    have hm' : (v, n) ∈ value_counts (colSeries rows "EMP ID") := hm
    have h2 := (mem_value_counts.mp hm').2
    rw [count_dropna] at h2
    exact h2
  · have hnone : (none : Option String) ∈ colSeries rows "EMP ID" :=
      List.mem_map.mpr ⟨r, hr, hnull⟩
    calc ((id_counts rows).map Prod.snd).sum
        = (dropna (colSeries rows "EMP ID")).length := sum_value_counts _
      _ < (colSeries rows "EMP ID").length := length_dropna_lt_of_none hnone
      _ = rows.length := List.length_map _ _

/-- Witness for C10 at a collection with one null-ID row and one A row. -/
theorem C10_witness :
    ([("EMP ID", none)] : Row) ∈
        ([[("EMP ID", none)], [("EMP ID", some "A")]] : List Row)
    ∧ (List.lookup "EMP ID" ([("EMP ID", none)] : Row)).join = none
    ∧ ((∀ rows₁ rows₂ : List Row,
          id_counts (rows₁ ++ ([("EMP ID", none)] : Row) :: rows₂) =
            id_counts (rows₁ ++ rows₂))
      ∧ (∀ v n,
          (v, n) ∈ id_counts [[("EMP ID", none)], [("EMP ID", some "A")]] →
          n = (colSeries [[("EMP ID", none)], [("EMP ID", some "A")]]
              "EMP ID").count (some v))
      ∧ ((id_counts [[("EMP ID", none)], [("EMP ID", some "A")]]).map
          Prod.snd).sum <
        ([[("EMP ID", none)], [("EMP ID", some "A")]] : List Row).length) :=
  ⟨by decide, by decide,
    C10_null_rows_dropped _ _ (by decide) (by decide)⟩

end TLPerf
